import Mathlib

/-
Shallow embedding of the 404-rain error page scene
(src/src/app/Application.js, ErrorPageScene) and of the delay utility
(src/unnamed/part_000). Times are in milliseconds, coordinates and
physics parameters are exact rationals mirroring the decimal literals
of the source; angles are stored in units of pi (the source writes
Math.PI / 2). Asset file names and tween property names are represented
by dedicated enumerations.
-/

/-- Physics impostor kinds used by the scene: PhysicsImpostor.SphereImpostor
for spawned o-meshes, PhysicsImpostor.BoxImpostor for the ground and the
404-text bounding box. -/
inductive ImpostorType where
  | sphere
  | box
deriving DecidableEq

/-- The two named materials created in the ErrorPageScene constructor:
yellowMat and whiteMat. -/
inductive MaterialName where
  | yellow
  | white
deriving DecidableEq

/-- Model asset files referenced by the scene: o.glb (the reusable spawned
model) and 404.gltf (the 404 text model), both under ../assets/. -/
inductive AssetFile where
  | oGlb
  | text404Gltf
deriving DecidableEq

/-- Diffuse color of a StandardMaterial, as set in the constructor. -/
structure MaterialDef where
  diffuseR : ℚ
  diffuseG : ℚ
  diffuseB : ℚ
deriving DecidableEq

/-- Embeds the delay utility of src/unnamed/part_000: a promise that
resolves `time` milliseconds after `now`; the returned value is the
resumption time of the awaiting continuation. -/
def delay (time now : ℚ) : ℚ := now + time

/-- One spawn initiation performed by the click handler: the time at which
_addO is called and the horizontal offset passed to it. -/
structure Spawn where
  t : ℚ
  x : ℚ
deriving DecidableEq

/-- Embeds the loop body of ErrorPageScene._handleClick:
for (let i = 0, x = -0.4; i < 3; i++, x += 0.4) { this._addO(x); await delay(200); }.
The fuel argument is the number of remaining iterations (3 - i); each
iteration records a spawn at the current time and offset, then resumes
after delay 200. -/
def handleClickLoop : Nat → ℚ → ℚ → List Spawn
  | 0, _, _ => []
  | n + 1, x, now => ⟨now, x⟩ :: handleClickLoop n (x + 0.4) (delay 200 now)

/-- Embeds ErrorPageScene._handleClick entered at time t0: three loop
iterations starting at offset -0.4. -/
def handleClick (t0 : ℚ) : List Spawn := handleClickLoop 3 (-0.4) t0

/-- Embeds the expression (Math.random() * 0.5) + 0.5 of _addO, with r the
outcome of Math.random(). -/
def scaleFactor (r : ℚ) : ℚ := r * 0.5 + 0.5

/-- A spawned o-mesh as configured by ErrorPageScene._addO: asset loaded,
merged into one mesh, scaled, given a sphere impostor, yellow material,
rotated by pi/2 about x, positioned, and scheduled for disposal. -/
structure OMesh where
  asset : AssetFile
  mergedSingle : Bool
  scaling : ℚ × ℚ × ℚ
  impostor : ImpostorType
  mass : ℚ
  restitution : ℚ
  material : MaterialName
  rotXPi : ℚ
  posX : ℚ
  posY : ℚ
  posZ : ℚ
  createdAt : ℚ
  disposeAt : ℚ
deriving DecidableEq

/-- Embeds ErrorPageScene._addO. Arguments: x the horizontal offset,
rScale and rZ the two Math.random() outcomes (scale then depth), t the
time at which the awaited mesh import resolves and the mesh is created.
The setTimeout at the end schedules disposal 20000 ms later. -/
def addO (x rScale rZ t : ℚ) : OMesh :=
  { asset := AssetFile.oGlb
    mergedSingle := true
    scaling := (scaleFactor rScale, scaleFactor rScale, scaleFactor rScale)
    impostor := ImpostorType.sphere
    mass := 1
    restitution := 0.6
    material := MaterialName.yellow
    rotXPi := 1/2
    posX := x
    posY := 1.4
    posZ := rZ * 0.5 + 0.1
    createdAt := t
    disposeAt := t + 20000 }

/-- A possible physics state of a spawned mesh at some instant (position,
velocity, whether it has come to rest). The disposal callback never reads
it. -/
structure PhysicsState where
  posX : ℚ
  posY : ℚ
  posZ : ℚ
  velX : ℚ
  velY : ℚ
  velZ : ℚ
  resting : Bool
deriving DecidableEq

/-- Embeds the setTimeout(() => oMesh.dispose(), 20000) call of _addO: the
time at which the mesh is disposed. The callback is unconditional, so the
physics state argument is ignored. -/
def disposalTime (o : OMesh) (_phys : PhysicsState) : ℚ := o.createdAt + 20000

/-- The ground box created by ErrorPageScene._addGround. -/
structure GroundMesh where
  width : ℚ
  height : ℚ
  posY : ℚ
  material : MaterialName
  rotXPi : ℚ
  receiveShadows : Bool
  impostor : ImpostorType
  mass : ℚ
  restitution : ℚ
deriving DecidableEq

/-- Embeds ErrorPageScene._addGround: a 20 by 4 box at y = -0.5, yellow,
rotated pi/2 about x, receiving shadows, with a static box impostor
(mass 0, restitution 0.9). -/
def groundMesh : GroundMesh :=
  { width := 20
    height := 4
    posY := -0.5
    material := MaterialName.yellow
    rotXPi := 1/2
    receiveShadows := true
    impostor := ImpostorType.box
    mass := 0
    restitution := 0.9 }

/-- The tween targets animated by the glitch effect: the grain post-process
and the chromatic aberration post-process of the default pipeline. -/
inductive TweenTarget where
  | grain
  | chromaticAberration
deriving DecidableEq

/-- Numeric properties set by the gsap.to calls in _glitchEffect. -/
inductive TweenProp where
  | intensity
  | animated
  | aberrationAmount
deriving DecidableEq

/-- Easing curve of a gsap.to call: power2.in where given, else the gsap
default. -/
inductive Ease where
  | power2In
  | defaultEase
deriving DecidableEq

/-- One gsap.to call: the animated target, the properties with their final
values, the duration in seconds, and the easing curve. The animation ramps
each property from its current value to the stated final value. -/
structure Tween where
  target : TweenTarget
  props : List (TweenProp × ℚ)
  duration : ℚ
  ease : Ease
deriving DecidableEq

/-- Embeds ErrorPageScene._glitchEffect as the ordered list of its four
gsap.to calls: grain up to 100 (0.1 s, power2.in), aberration up to 50
(0.1 s, power2.in, awaited), then grain down to 0 and aberration down to 2
(0.5 s each). -/
def glitchTweens : List Tween :=
  [⟨TweenTarget.grain, [(TweenProp.intensity, 100), (TweenProp.animated, 100)], 0.1, Ease.power2In⟩,
   ⟨TweenTarget.chromaticAberration, [(TweenProp.aberrationAmount, 50)], 0.1, Ease.power2In⟩,
   ⟨TweenTarget.grain, [(TweenProp.intensity, 0), (TweenProp.animated, 0)], 0.5, Ease.defaultEase⟩,
   ⟨TweenTarget.chromaticAberration, [(TweenProp.aberrationAmount, 2)], 0.5, Ease.defaultEase⟩]

/-- Final values, in call order, that a tween list assigns to a given
property of a given target. -/
def tweenTargets (ts : List Tween) (tg : TweenTarget) (p : TweenProp) : List ℚ :=
  (ts.filter (fun tw => tw.target = tg)).filterMap (fun tw => tw.props.lookup p)

/-- Embeds the firing schedule of setInterval(cb, period) registered at
time registeredAt: callback number k (starting at 0) fires after k + 1
periods. -/
def setIntervalFireTime (registeredAt period : ℚ) (k : Nat) : ℚ :=
  registeredAt + period * (k + 1)

/-- Period of the glitch interval registered in _init:
setInterval(this._glitchEffect.bind(this), 7000). -/
def glitchIntervalPeriod : ℚ := 7000

/-- Invocation times of _glitchEffect relative to scene initialization:
invocation 0 is the direct call in _init (time 0), invocation k + 1 is
interval firing number k of the setInterval registered at time 0. -/
def glitchInvocationTime : Nat → ℚ
  | 0 => 0
  | k + 1 => setIntervalFireTime 0 glitchIntervalPeriod k

/-- The invisible collision box created synchronously at the start of
ErrorPageScene._add404Text. -/
structure Box404 where
  width : ℚ
  height : ℚ
  depth : ℚ
  posX : ℚ
  posZ : ℚ
  visibility : ℚ
  impostor : ImpostorType
  mass : ℚ
deriving DecidableEq

/-- Embeds the bounding box set up in _add404Text before the await: a box
of width 1.1, height 1.05, depth 0.2 at (x, z) = (0.1, 0.1), visibility 0,
with a static box impostor of mass 0. -/
def text404BoundingBox : Box404 :=
  { width := 1.1
    height := 1.05
    depth := 0.2
    posX := 0.1
    posZ := 0.1
    visibility := 0
    impostor := ImpostorType.box
    mass := 0 }

/-- The successive actions of ErrorPageScene._add404Text, in program
order. createBoundingBox covers the synchronous box creation and its
configuration; awaitImport404 is the awaited SceneLoader.ImportMeshAsync
of 404.gltf; the remaining steps run on the loaded text mesh. -/
inductive TextStep where
  | createBoundingBox
  | awaitImport404
  | excludeFromHemLight
  | addShadowCaster
  | setMaterialWhite
  | rotateTextMesh
deriving DecidableEq

/-- Embeds ErrorPageScene._add404Text as its ordered action list. -/
def add404TextSteps : List TextStep :=
  [TextStep.createBoundingBox,
   TextStep.awaitImport404,
   TextStep.excludeFromHemLight,
   TextStep.addShadowCaster,
   TextStep.setMaterialWhite,
   TextStep.rotateTextMesh]

/-- State of the DefaultRenderingPipeline right after _addPipeline: the
fields the code assigns. The continuously animated grain and aberration
values are carried by the tween model, not here. -/
structure PipelineState where
  samples : Nat
  grainEnabled : Bool
  chromaticAberrationEnabled : Bool
deriving DecidableEq

/-- The camera fields the scene touches: the position from the
constructor, and minZ and cameraRotation which _init assigns (none until
then, meaning the engine default). -/
structure CameraState where
  posX : ℚ
  posY : ℚ
  posZ : ℚ
  minZ : Option ℚ
  cameraRotation : Option (ℚ × ℚ)
deriving DecidableEq

/-- The mutable fields of an ErrorPageScene instance that the embedded
methods read or write. -/
structure SceneState where
  canvasAttached : Bool
  physicsGravity : Option (ℚ × ℚ × ℚ)
  clearColorBlack : Bool
  camera : CameraState
  yellowMat : MaterialDef
  whiteMat : MaterialDef
  pipeline : Option PipelineState
  lightsCreated : Bool
  shadowGeneratorCreated : Bool
  ground : Option GroundMesh
  text404Box : Option Box404
  listenersAdded : Bool
  glitchIntervalScheduled : Bool
  renderLoopRunning : Bool
  spawned : List OMesh
deriving DecidableEq

/-- Scene state established by the ErrorPageScene constructor just before
it calls _init: camera at (0, 0.6, -2), the two materials with their
diffuse colors, pipeline and shadow generator still null, nothing spawned. -/
def constructorState : SceneState :=
  { canvasAttached := false
    physicsGravity := none
    clearColorBlack := false
    camera := { posX := 0, posY := 0.6, posZ := -2, minZ := none, cameraRotation := none }
    yellowMat := { diffuseR := 0.97, diffuseG := 0.79, diffuseB := 0.03 }
    whiteMat := { diffuseR := 1, diffuseG := 1, diffuseB := 1 }
    pipeline := none
    lightsCreated := false
    shadowGeneratorCreated := false
    ground := none
    text404Box := none
    listenersAdded := false
    glitchIntervalScheduled := false
    renderLoopRunning := false
    spawned := [] }

/-- The gravity vector passed to scene.enablePhysics in _init. -/
def gravityVector : ℚ × ℚ × ℚ := (0, -9.81, 0)

/-- Value assigned to this.camera.minZ in _init. -/
def cameraMinZValue : ℚ := 0.1

/-- Value assigned to this.camera.cameraRotation in _init: Vector2(0.01, 0). -/
def cameraRotationValue : ℚ × ℚ := (0.01, 0)

/-- The statements of ErrorPageScene._init, in program order. The camera
configuration is split into its two assignments; glitchEffect is the
direct call, setIntervalGlitch the setInterval registration. -/
inductive InitStep where
  | appendCanvas
  | enablePhysics
  | setClearColor
  | setCameraMinZ
  | setCameraRotation
  | addPipeline
  | addLights
  | addGround
  | add404Text
  | addListeners
  | glitchEffect
  | setIntervalGlitch
  | engineResize
  | runRenderLoop
deriving DecidableEq

/-- Embeds ErrorPageScene._init as its ordered statement list
(lines 98 to 122 of src/src/app/Application.js). -/
def initSteps : List InitStep :=
  [InitStep.appendCanvas,
   InitStep.enablePhysics,
   InitStep.setClearColor,
   InitStep.setCameraMinZ,
   InitStep.setCameraRotation,
   InitStep.addPipeline,
   InitStep.addLights,
   InitStep.addGround,
   InitStep.add404Text,
   InitStep.addListeners,
   InitStep.glitchEffect,
   InitStep.setIntervalGlitch,
   InitStep.engineResize,
   InitStep.runRenderLoop]

/-- Effect of each _init statement on the scene state. addPipeline builds
the pipeline with samples 4 and both effects enabled; addLights creates
the three lights and the shadow generator; add404Text synchronously
creates the collision box (its asynchronous remainder touches only the
text mesh). glitchEffect and engineResize mutate no scene field. -/
def applyInitStep (s : SceneState) : InitStep → SceneState
  | InitStep.appendCanvas => { s with canvasAttached := true }
  | InitStep.enablePhysics => { s with physicsGravity := some gravityVector }
  | InitStep.setClearColor => { s with clearColorBlack := true }
  | InitStep.setCameraMinZ => { s with camera := { s.camera with minZ := some cameraMinZValue } }
  | InitStep.setCameraRotation =>
      { s with camera := { s.camera with cameraRotation := some cameraRotationValue } }
  | InitStep.addPipeline =>
      { s with pipeline := some { samples := 4, grainEnabled := true, chromaticAberrationEnabled := true } }
  | InitStep.addLights => { s with lightsCreated := true, shadowGeneratorCreated := true }
  | InitStep.addGround => { s with ground := some groundMesh }
  | InitStep.add404Text => { s with text404Box := some text404BoundingBox }
  | InitStep.addListeners => { s with listenersAdded := true }
  | InitStep.glitchEffect => s
  | InitStep.setIntervalGlitch => { s with glitchIntervalScheduled := true }
  | InitStep.engineResize => s
  | InitStep.runRenderLoop => { s with renderLoopRunning := true }

/-- Scene state once _init has run to completion. -/
def postInitState : SceneState := initSteps.foldl applyInitStep constructorState

/-- A click event delivered to the canvas listener, with its pointer
coordinates. The bound handler _handleClick declares no parameter, so the
coordinates are never read. -/
structure ClickEvent where
  clientX : ℚ
  clientY : ℚ
deriving DecidableEq

/-- Embeds one full click sequence at the object level: the three spawn
initiations of _handleClick, each completed by _addO with its two
Math.random() outcomes drawn from the stream rands (indices 2i and
2i + 1 for spawn number i). -/
def clickSpawnedObjects (t0 : ℚ) (rands : Nat → ℚ) : List OMesh :=
  (handleClick t0).enum.map (fun p => addO p.2.x (rands (2 * p.1)) (rands (2 * p.1 + 1)) p.2.t)

/-- Runtime events the scene reacts to after initialization: a window
resize, a firing of the glitch interval, and a canvas click (carrying the
entry time and the random stream of its sequence). -/
inductive RuntimeEvent where
  | resize
  | glitchTick
  | click (ev : ClickEvent) (t0 : ℚ) (rands : Nat → ℚ)

/-- Calls into the engine and tween library that an event handler issues. -/
inductive EngineCall where
  | engineResize
  | tween (tw : Tween)
  | importMesh (file : AssetFile)

/-- Embeds the event handlers registered by the scene: the resize listener
calls only this.engine.resize(); a glitch interval firing runs the four
gsap.to calls of _glitchEffect; a click runs _handleClick, importing the
o-model three times and adding the spawned meshes to the scene. -/
def stepEvent (s : SceneState) : RuntimeEvent → SceneState × List EngineCall
  | RuntimeEvent.resize => (s, [EngineCall.engineResize])
  | RuntimeEvent.glitchTick => (s, glitchTweens.map EngineCall.tween)
  | RuntimeEvent.click _ t0 rands =>
      ({ s with spawned := s.spawned ++ clickSpawnedObjects t0 rands },
       (handleClick t0).map (fun _ => EngineCall.importMesh AssetFile.oGlb))

/-- Folds a list of runtime events over the scene state. -/
def runEvents (s : SceneState) (evs : List RuntimeEvent) : SceneState :=
  evs.foldl (fun s e => (stepEvent s e).1) s

/-- Written from the words of the spec, for comparison with initSteps: the
ten-step required order of section 4.1, with the camera step split like the
code splits it and the glitch step split into direct call and interval
registration. -/
def specRequiredInitOrder : List InitStep :=
  [InitStep.appendCanvas,
   InitStep.enablePhysics,
   InitStep.setCameraMinZ,
   InitStep.setCameraRotation,
   InitStep.addPipeline,
   InitStep.addLights,
   InitStep.addGround,
   InitStep.add404Text,
   InitStep.addListeners,
   InitStep.glitchEffect,
   InitStep.setIntervalGlitch,
   InitStep.runRenderLoop]

/-- Helper: no event handler ever reassigns this.pipeline, so one event
step leaves the pipeline field unchanged. -/
theorem stepEvent_preserves_pipeline (s : SceneState) (e : RuntimeEvent) :
    ((stepEvent s e).1).pipeline = s.pipeline := by
  cases e <;> rfl

/-- Helper: any sequence of runtime events leaves the pipeline field
unchanged. -/
theorem runEvents_preserves_pipeline (evs : List RuntimeEvent) (s : SceneState) :
    (runEvents s evs).pipeline = s.pipeline := by
  induction evs generalizing s with
  | nil => rfl
  | cons e rest ih =>
      have h := stepEvent_preserves_pipeline s e
      calc (runEvents s (e :: rest)).pipeline
          = (runEvents (stepEvent s e).1 rest).pipeline := rfl
        _ = ((stepEvent s e).1).pipeline := ih (stepEvent s e).1
        _ = s.pipeline := h

/-- C1: every click on the canvas makes the handler initiate exactly 3
spawns, with horizontal offsets -0.4, 0.0, 0.4 assigned in that order, and
with at least 200 ms between consecutive spawn initiations of the
sequence. -/
theorem click_spawns_three_staggered (t0 : ℚ) :
    (handleClick t0).length = 3 ∧
    (handleClick t0).map Spawn.x = [-0.4, 0, 0.4] ∧
    List.Chain' (fun a b => a + 200 ≤ b) ((handleClick t0).map Spawn.t) := by
  refine ⟨rfl, ?_, ?_⟩
  · norm_num [handleClick, handleClickLoop, delay]
  · simp [handleClick, handleClickLoop, delay]

/-- C2: for every spawned object and every outcome of Math.random() (a
value in [0, 1)), the scale factor applied to the object lies in
[0.5, 1.0], and it is uniform across the three axes. -/
theorem spawn_scale_bounds (x rScale rZ t : ℚ) (h0 : 0 ≤ rScale) (h1 : rScale < 1) :
    (0.5 ≤ (addO x rScale rZ t).scaling.1 ∧ (addO x rScale rZ t).scaling.1 ≤ 1) ∧
    (addO x rScale rZ t).scaling.2.1 = (addO x rScale rZ t).scaling.1 ∧
    (addO x rScale rZ t).scaling.2.2 = (addO x rScale rZ t).scaling.1 := by
  have hs : (addO x rScale rZ t).scaling.1 = rScale * 0.5 + 0.5 := rfl
  refine ⟨⟨?_, ?_⟩, rfl, rfl⟩
  · rw [hs]
    linarith
  · rw [hs]
    linarith

/-- Witness for C2 at the concrete random outcome 0. -/
theorem spawn_scale_bounds_witness :
    (0.5 ≤ (addO 0 0 0 0).scaling.1 ∧ (addO 0 0 0 0).scaling.1 ≤ 1) ∧
    (addO 0 0 0 0).scaling.2.1 = (addO 0 0 0 0).scaling.1 ∧
    (addO 0 0 0 0).scaling.2.2 = (addO 0 0 0 0).scaling.1 :=
  spawn_scale_bounds 0 0 0 0 (by norm_num) (by norm_num)

/-- C3: every spawned object is disposed exactly 20000 ms after its
creation, and the disposal time does not depend on the physics state at
that time. -/
theorem spawn_disposed_after_20000 (x rScale rZ t : ℚ) (p1 p2 : PhysicsState) :
    disposalTime (addO x rScale rZ t) p1 = (addO x rScale rZ t).createdAt + 20000 ∧
    disposalTime (addO x rScale rZ t) p1 = disposalTime (addO x rScale rZ t) p2 ∧
    (addO x rScale rZ t).disposeAt = (addO x rScale rZ t).createdAt + 20000 :=
  ⟨rfl, rfl, rfl⟩

/-- C4: the glitch effect runs at scene startup (time 0) and then once
every 7000 ms, and each invocation ramps the grain intensity from its
current value to 100 and then to 0, and the chromatic aberration amount
from its current value to 50 and then to 2. -/
theorem glitch_schedule_and_ramp :
    (∀ k : Nat, glitchInvocationTime k = 7000 * k) ∧
    tweenTargets glitchTweens TweenTarget.grain TweenProp.intensity = [100, 0] ∧
    tweenTargets glitchTweens TweenTarget.chromaticAberration TweenProp.aberrationAmount
      = [50, 2] := by
  refine ⟨?_, rfl, rfl⟩
  intro k
  cases k with
  | zero => norm_num [glitchInvocationTime]
  | succ n =>
      unfold glitchInvocationTime setIntervalFireTime glitchIntervalPeriod
      push_cast
      ring

/-- C5: the statements of _init occur in the required dependency order of
the spec (rendering surface, physics, camera, pipeline, lights, ground,
404 text load, listeners, immediate glitch plus its 7 s schedule, render
loop), with a fixed downward gravity vector, near-clip 0.1 and slow camera
rotation (0.01, 0). -/
theorem init_order_matches_spec :
    List.Sublist specRequiredInitOrder initSteps ∧
    gravityVector = (0, -9.81, 0) ∧ gravityVector.2.1 < 0 ∧
    cameraMinZValue = 0.1 ∧ cameraRotationValue = (0.01, 0) := by
  refine ⟨by decide, rfl, ?_, rfl, rfl⟩
  norm_num [gravityVector]

/-- C6: every spawned object is built by loading the reusable o.glb model,
merging it into a single mesh, attaching a sphere impostor with mass 1 and
restitution 0.6, positioning it above the ground with depth jitter
rZ * 0.5 + 0.1 from the random outcome rZ, and applying the yellow accent
material. -/
theorem spawn_object_configuration (x rScale rZ t : ℚ) :
    (addO x rScale rZ t).asset = AssetFile.oGlb ∧
    (addO x rScale rZ t).mergedSingle = true ∧
    (addO x rScale rZ t).impostor = ImpostorType.sphere ∧
    (addO x rScale rZ t).mass = 1 ∧
    (addO x rScale rZ t).restitution = 0.6 ∧
    (addO x rScale rZ t).material = MaterialName.yellow ∧
    groundMesh.posY < (addO x rScale rZ t).posY ∧
    (addO x rScale rZ t).posZ = rZ * 0.5 + 0.1 := by
  refine ⟨rfl, rfl, rfl, rfl, rfl, rfl, ?_, rfl⟩
  norm_num [addO, groundMesh]

/-- C7: the window resize handler issues exactly one engine resize call
and changes no field of the scene state. -/
theorem resize_only_engine_resize (s : SceneState) :
    stepEvent s RuntimeEvent.resize = (s, [EngineCall.engineResize]) := rfl

/-- C8: the pipeline is non-null when the direct glitch call of _init runs
and when its interval is registered, and it stays non-null across every
later sequence of runtime events, so every interval-driven glitch
invocation also dereferences a non-null pipeline. -/
theorem pipeline_set_before_glitch :
    (((initSteps.takeWhile (fun st => st ≠ InitStep.glitchEffect)).foldl applyInitStep
        constructorState).pipeline).isSome = true ∧
    (((initSteps.takeWhile (fun st => st ≠ InitStep.setIntervalGlitch)).foldl applyInitStep
        constructorState).pipeline).isSome = true ∧
    ∀ evs : List RuntimeEvent, ((runEvents postInitState evs).pipeline).isSome = true := by
  refine ⟨rfl, rfl, ?_⟩
  intro evs
  rw [runEvents_preserves_pipeline]
  rfl

/-- C9: the click handler ignores the click coordinates: two clicks at
different positions with the same entry time and the same random stream
produce identical state updates and engine calls. -/
theorem click_coords_unused (s : SceneState) (e1 e2 : ClickEvent) (t0 : ℚ)
    (rands : Nat → ℚ) (_hne : e1 ≠ e2) :
    stepEvent s (RuntimeEvent.click e1 t0 rands) =
      stepEvent s (RuntimeEvent.click e2 t0 rands) :=
  rfl

/-- Witness for C9 at two concrete distinct click positions. -/
theorem click_coords_unused_witness :
    stepEvent constructorState (RuntimeEvent.click ⟨0, 0⟩ 0 (fun _ => 0)) =
      stepEvent constructorState (RuntimeEvent.click ⟨1, 1⟩ 0 (fun _ => 0)) :=
  click_coords_unused constructorState ⟨0, 0⟩ ⟨1, 1⟩ 0 (fun _ => 0)
    (fun h => absurd (congrArg ClickEvent.clientX h) (by show ¬ (0 : ℚ) = 1; norm_num))

/-- C10: _add404Text creates the invisible bounding box (width 1.1, height
1.05, depth 0.2, visibility 0, positioned at the text location, static box
impostor of mass 0) synchronously, strictly before the asynchronous load
of the 404 text model begins. -/
theorem text404_box_before_load :
    add404TextSteps.head? = some TextStep.createBoundingBox ∧
    add404TextSteps.indexOf TextStep.createBoundingBox <
      add404TextSteps.indexOf TextStep.awaitImport404 ∧
    text404BoundingBox.width = 1.1 ∧
    text404BoundingBox.height = 1.05 ∧
    text404BoundingBox.depth = 0.2 ∧
    text404BoundingBox.visibility = 0 ∧
    text404BoundingBox.posX = 0.1 ∧
    text404BoundingBox.posZ = 0.1 ∧
    text404BoundingBox.impostor = ImpostorType.box ∧
    text404BoundingBox.mass = 0 :=
  ⟨rfl, by decide, rfl, rfl, rfl, rfl, rfl, rfl, rfl, rfl⟩
